import Mathlib

/-!
Verification of the SYSTAT hypothesis-testing service.

The repository exposes one-sample / two-sample / paired t-tests and
one-sample / two-sample / two-proportion z-tests over HTTP.  The numeric
core of each endpoint is embedded here over `ℚ`.  The source delegates the
Student-t and normal distribution functions to `scipy.stats` and square
roots to `math.sqrt` / `numpy.sqrt`; those external functions are
irrational-valued, so every embedded endpoint is parameterized over the
distribution functions (`tCdf tPpf : ℚ → ℚ → ℚ`, `normCdf normPpf : ℚ → ℚ`)
and the square root (`sq : ℚ → ℚ`).  Concrete computable instances of these
parameters, modelled from the specification of the Distribution Provider,
are given below and used to instantiate the theorems at closed inputs.
-/

namespace Systat

/-- Arithmetic mean of a list, `np.mean` / `sum(l)/len(l)` in the source. -/
def listMean (l : List ℚ) : ℚ := l.sum / (l.length : ℚ)

/-- Sample variance with divisor `n − 1`, the square of
`np.std(sample, ddof=1)` / `scipy.stats.tstd` in the source. -/
def sampleVar (l : List ℚ) : ℚ :=
  (l.map (fun x => (x - listMean l) ^ 2)).sum / ((l.length : ℚ) - 1)

/-- Modelled from the spec: the source computes square roots with
`math.sqrt` / `np.sqrt` (external, irrational-valued).  Theorems are
parameterized over the square-root function; this computable instance is
exact on perfect squares and a floor approximation otherwise, and it is
positive on positive inputs, which is the only property the proofs use. -/
def ratSqrt (q : ℚ) : ℚ :=
  if q ≤ 0 then 0 else ((Nat.sqrt (q.num.toNat * q.den) : ℚ) / (q.den : ℚ))

/-- Python's `str.upper()` on ASCII strings, written out as a character map
so that it evaluates inside proofs. -/
def pyUpper (s : String) : String := String.mk (s.data.map Char.toUpper)

/-- Modelled from the spec: a concrete Distribution Provider CDF satisfying
the §4.1 contract (monotone, `cdf 0 = 1/2`, symmetric `cdf (−x) = 1 − cdf x`,
range inside `(0,1)`), used only to instantiate CDF-parameterized theorems;
the source's `scipy.stats.t.cdf` / `scipy.stats.norm.cdf` are external. -/
def sigCdf (x : ℚ) : ℚ := 1/2 + x / (2 * (1 + |x|))

/-- Modelled from the spec: the exact quantile function (inverse CDF) of
`sigCdf`, standing in for the external `scipy.stats.t.ppf` /
`scipy.stats.norm.ppf`.  Like the genuine quantile of any symmetric
distribution it is nonnegative exactly on `p ∈ [1/2, 1)`. -/
def sigPpf (p : ℚ) : ℚ :=
  if 1/2 ≤ p then (2*p - 1) / (2 - 2*p) else -((1 - 2*p) / (2*p))

/-- Student-t CDF stand-in; the `df` argument is accepted (fractional df is
valid input per the spec) and ignored by this particular instance. -/
def sigTCdf (x : ℚ) (_df : ℚ) : ℚ := sigCdf x

/-- Student-t quantile stand-in; see `sigTCdf`. -/
def sigTPpf (p : ℚ) (_df : ℚ) : ℚ := sigPpf p

/-- Modelled from the spec: a second concrete provider CDF with thinner
tails (`1 − 1/(2(1+x)⁴)` for `x ≥ 0`), needed to instantiate tail-probability
hypotheses that the fat-tailed `sigCdf` cannot discharge. -/
def quarticCdf (x : ℚ) : ℚ :=
  if 0 ≤ x then 1 - 1 / (2 * (1 + x) ^ 4) else 1 / (2 * (1 - x) ^ 4)

/-! ## src/One-sample-t-test_api.py — one-sample t-test on summary statistics -/

namespace TTestApi

/-- The JSON payload returned by `one_sample_t_test`
(src/One-sample-t-test_api.py lines 121-137), plot data omitted. -/
structure TResult where
  t_score : ℚ
  p_value : ℚ
  degrees_of_freedom : ℚ
  ci_lower : ℚ
  ci_upper : ℚ
  conclusion : String
deriving DecidableEq

/-- Embeds `one_sample_t_test` (src/One-sample-t-test_api.py lines 38-137):
validation of `sample_size`, `sample_std` and `confidence_level`; t score
`(x̄ − μ₀)/(s/√n)`; p-value dispatched on the raw `alternative` string with
fallthrough to the two-tailed branch; optional `bonferroni` / `dunn_sidak`
adjustment overwriting `p_value` when `num_comparisons > 1`; conclusion
`p_value < 1 − confidence_level` (after adjustment); confidence interval
from the two-sided critical value `t.ppf((1+confidence)/2, df)`. -/
def one_sample_t_test (tCdf tPpf : ℚ → ℚ → ℚ) (sq : ℚ → ℚ)
    (sample_mean population_mean sample_std : ℚ) (sample_size : ℕ)
    (confidence_level : ℚ) (alternative : String)
    (adjustment : Option String) (num_comparisons : ℕ) :
    Except String TResult :=
  if sample_size ≤ 1 then
    .error "Sample size must be greater than one for a t-test."
  else if sample_std ≤ 0 then
    .error "Sample standard deviation must be greater than zero."
  else if ¬ (0 < confidence_level ∧ confidence_level < 1) then
    .error "Confidence level must be between 0 and 1 (exclusive)."
  else
    let t_score := (sample_mean - population_mean) / (sample_std / sq (sample_size : ℚ))
    let df : ℚ := (sample_size : ℚ) - 1
    let p0 :=
      if alternative = "greater" then 1 - tCdf t_score df
      else if alternative = "less" then tCdf t_score df
      else 2 * (1 - tCdf |t_score| df)
    let p_value :=
      if adjustment = some "bonferroni" ∧ 1 < num_comparisons then
        min (p0 * (num_comparisons : ℚ)) 1
      else if adjustment = some "dunn_sidak" ∧ 1 < num_comparisons then
        min (1 - (1 - p0) ^ num_comparisons) 1
      else p0
    let conclusion :=
      if p_value < 1 - confidence_level then "Reject null hypothesis"
      else "Fail to reject null hypothesis"
    let critical_value := tPpf ((1 + confidence_level) / 2) df
    let margin_of_error := critical_value * (sample_std / sq (sample_size : ℚ))
    .ok { t_score := t_score, p_value := p_value, degrees_of_freedom := df,
          ci_lower := sample_mean - margin_of_error,
          ci_upper := sample_mean + margin_of_error,
          conclusion := conclusion }

/-- The adjustment step of `one_sample_t_test` in isolation
(src/One-sample-t-test_api.py lines 83-87): `bonferroni` and `dunn_sidak`
apply only when `num_comparisons > 1`, any other value leaves `p` unchanged. -/
def applyAdjustment (adjustment : Option String) (num_comparisons : ℕ) (p : ℚ) : ℚ :=
  if adjustment = some "bonferroni" ∧ 1 < num_comparisons then
    min (p * (num_comparisons : ℚ)) 1
  else if adjustment = some "dunn_sidak" ∧ 1 < num_comparisons then
    min (1 - (1 - p) ^ num_comparisons) 1
  else p

end TTestApi

/-! ## src/app/api/One_sample_t_test_api.py — one-sample t-test on a raw sample -/

namespace AppTTest

/-- The numeric content of the structured JSON produced by
`calculate_one_sample_t_test` (src/app/api/One_sample_t_test_api.py
lines 87-104), rounding for display omitted. -/
structure AResult where
  sample_size : ℕ
  sample_mean : ℚ
  sample_std : ℚ
  degrees_of_freedom : ℚ
  t_stat : ℚ
  p_value : ℚ
  lower_bound : ℚ
  upper_bound : ℚ
deriving DecidableEq

/-- Embeds `calculate_one_sample_t_test`
(src/app/api/One_sample_t_test_api.py lines 53-106).  The statistic of the
external `scipy.stats.ttest_1samp` is modelled from the spec (§4.3
one_sample_t): `t = (x̄ − μ₀)/(s/√n)`; the subsequent p-value dispatch on
the raw `alternative` string (lines 69-74, fallthrough to two-tailed) is in
the source.  The only validation is `sample_size < 2` (line 59): there is no
standard-deviation check and no confidence-level range check.  For one-sided
alternatives the CI critical value is `t.ppf(1 − confidence, df)` (line 78),
otherwise `t.ppf(1 − (1 − confidence)/2, df)` (line 80); both bounds
`x̄ ∓ margin` are always produced (lines 82-84). -/
def calculate_one_sample_t_test (tCdf tPpf : ℚ → ℚ → ℚ) (sq : ℚ → ℚ)
    (sample : List ℚ) (population_mean : ℚ) (alternative : String)
    (confidence : ℚ) : Except String AResult :=
  if sample.length < 2 then .error "Sample size must be greater than one."
  else
    let n : ℚ := (sample.length : ℚ)
    let sample_mean := listMean sample
    let sample_std := sq (sampleVar sample)
    let df := n - 1
    let t_stat := (sample_mean - population_mean) / (sample_std / sq n)
    let p_value :=
      if alternative = "greater" then 1 - tCdf t_stat df
      else if alternative = "less" then tCdf t_stat df
      else 2 * (1 - tCdf |t_stat| df)
    let t_critical :=
      if alternative = "greater" ∨ alternative = "less" then tPpf (1 - confidence) df
      else tPpf (1 - (1 - confidence) / 2) df
    let margin_of_error := t_critical * (sample_std / sq n)
    .ok { sample_size := sample.length, sample_mean := sample_mean,
          sample_std := sample_std, degrees_of_freedom := df, t_stat := t_stat,
          p_value := p_value,
          lower_bound := sample_mean - margin_of_error,
          upper_bound := sample_mean + margin_of_error }

end AppTTest

/-! ## src/z_test_api.py — standalone one-sample and two-sample z-tests -/

namespace ZTestApi

/-- A request body for the `/ztest` route.  The handler reads only the four
numeric keys (src/z_test_api.py lines 18-21); an `alternative` or
`confidence_level` key supplied by the caller is present in the JSON but
never read, so it is carried here as an optional field. -/
structure ZRequest where
  sample_mean : ℚ
  population_mean : ℚ
  standard_deviation : ℚ
  sample_size : ℕ
  alternative : Option String
  confidence_level : Option ℚ
deriving DecidableEq

/-- The JSON payload returned by `one_sample_z_test`
(src/z_test_api.py lines 44-52), plot data omitted. -/
structure ZResult where
  z_score : ℚ
  p_value : ℚ
  conclusion : String
deriving DecidableEq

/-- Embeds `one_sample_z_test` (src/z_test_api.py lines 10-55): validation
of `sample_size` and `standard_deviation`; `z = (x̄ − μ₀)/(σ/√n)`; the
p-value is always the two-tailed `2(1 − Φ(|z|))` (line 37) and the
conclusion always compares against the literal `0.05` (line 47).  No field
of the request other than the four numeric ones is consulted. -/
def one_sample_z_test (normCdf : ℚ → ℚ) (sq : ℚ → ℚ) (req : ZRequest) :
    Except String ZResult :=
  if req.sample_size ≤ 0 then
    .error "Sample size must be greater than zero."
  else if req.standard_deviation ≤ 0 then
    .error "Standard deviation must be greater than zero."
  else
    let z_score := (req.sample_mean - req.population_mean) /
      (req.standard_deviation / sq (req.sample_size : ℚ))
    let p_value := 2 * (1 - normCdf |z_score|)
    .ok { z_score := z_score, p_value := p_value,
          conclusion := if p_value < 0.05 then "Reject null hypothesis"
            else "Fail to reject null hypothesis" }

end ZTestApi

/-! ## src/app/api/two_sample_z_test_api.py — two-sample z-test (grouped data) -/

namespace TwoSampleZApp

/-- Embeds the alternative-hypothesis dispatch of `two_sample_z_test_func`
(src/app/api/two_sample_z_test_api.py lines 31 and 52-57): the request's
`alternative` string (default `NE`) is upper-cased; `NE` gives the
two-tailed p-value, `LT` the lower tail, and any other string falls through
to the `GT` branch `1 − Φ(z)`. -/
def two_sample_z_p_value (normCdf : ℚ → ℚ) (z_score : ℚ)
    (alternative : String) : ℚ :=
  if pyUpper alternative = "NE" then 2 * (1 - normCdf |z_score|)
  else if pyUpper alternative = "LT" then normCdf z_score
  else 1 - normCdf z_score

end TwoSampleZApp

/-! ## src/app/utils.py — two-sample t-test input validator -/

namespace Utils

/-- Embeds `validate_two_sample_t_test_input` (src/app/utils.py
lines 81-114), restricted to data already known to be two numeric lists;
the quotation marks of the Python error messages are omitted. -/
def validate_two_sample_t_test_input (group1 group2 : List ℚ)
    (alternative : String) (confidence : ℚ) :
    Except String (List ℚ × List ℚ × String × ℚ) :=
  if group1.length < 2 ∨ group2.length < 2 then
    .error "Each group must contain at least two values."
  else if ¬ (alternative = "two-sided" ∨ alternative = "greater" ∨
      alternative = "less") then
    .error "Invalid alternative hypothesis. Choose from two-sided, greater, or less."
  else if ¬ (0 < confidence ∧ confidence < 1) then
    .error "Confidence level must be between 0 and 1."
  else .ok (group1, group2, alternative, confidence)

end Utils

/-! ## src/app/api/two_sample_t_test_api.py — two-sample t-test -/

namespace TwoSampleT

/-- The Welch–Satterthwaite degrees of freedom (spec §4.3), the df used by
`scipy.stats.ttest_ind(..., equal_var=False)` for the p-value. -/
def welchDF (v1 n1 v2 n2 : ℚ) : ℚ :=
  (v1 / n1 + v2 / n2) ^ 2 /
    ((v1 / n1) ^ 2 / (n1 - 1) + (v2 / n2) ^ 2 / (n2 - 1))

/-- The numeric content of the JSON produced by
`calculate_and_format_two_sample_t_test`
(src/app/api/two_sample_t_test_api.py lines 59-80), rounding omitted. -/
structure TwoTResult where
  mean_difference : ℚ
  std_err : ℚ
  t_stat : ℚ
  df : ℚ
  p_value : ℚ
  lower_bound : ℚ
  upper_bound : ℚ
deriving DecidableEq

/-- Embeds `calculate_and_format_two_sample_t_test`
(src/app/api/two_sample_t_test_api.py lines 42-82).  The statistic and
p-value of the external `scipy.stats.ttest_ind(..., equal_var=False)`
(line 47) are modelled from the spec (§4.3 welch, §4.4): Welch statistic
`(x̄₁ − x̄₂)/√(s₁²/n₁ + s₂²/n₂)` evaluated at the Welch–Satterthwaite df.
The source then computes its own `df = len(group1) + len(group2) - 2`
(line 51) and uses that pooled value both for the reported `df` and for the
confidence-interval critical value `t.ppf(1 − (1 − confidence)/2, df)`
(line 54). -/
def calculate_and_format_two_sample_t_test (tCdf tPpf : ℚ → ℚ → ℚ)
    (sq : ℚ → ℚ) (group1 group2 : List ℚ) (alternative : String)
    (confidence : ℚ) : TwoTResult :=
  let n1 : ℚ := (group1.length : ℚ)
  let n2 : ℚ := (group2.length : ℚ)
  let v1 := sampleVar group1
  let v2 := sampleVar group2
  let wdf := welchDF v1 n1 v2 n2
  let t_stat := (listMean group1 - listMean group2) / sq (v1 / n1 + v2 / n2)
  let p_value :=
    if alternative = "greater" then 1 - tCdf t_stat wdf
    else if alternative = "less" then tCdf t_stat wdf
    else 2 * (1 - tCdf |t_stat| wdf)
  let mean_difference := listMean group1 - listMean group2
  let std_err := sq (v1 / n1 + v2 / n2)
  let df := n1 + n2 - 2
  let t_critical := tPpf (1 - (1 - confidence) / 2) df
  let margin_of_error := t_critical * std_err
  { mean_difference := mean_difference, std_err := std_err, t_stat := t_stat,
    df := df, p_value := p_value,
    lower_bound := mean_difference - margin_of_error,
    upper_bound := mean_difference + margin_of_error }

end TwoSampleT

/-! ## src/app/api/paired_t_test_api.py — paired t-test -/

namespace PairedT

/-- The numeric content of the JSON produced by
`calculate_and_format_paired_t_test`
(src/app/api/paired_t_test_api.py lines 78-97): note the single
`95% Confidence Bound` field — the record carries one bound only, no upper
bound exists in the output. -/
structure PairedResult where
  mean_difference : ℚ
  confidence_bound : ℚ
  sd_of_differences : ℚ
  t_stat : ℚ
  df : ℚ
  p_value : ℚ
deriving DecidableEq

/-- Embeds `calculate_and_format_paired_t_test`
(src/app/api/paired_t_test_api.py lines 65-99).  The statistic and
(two-sided) p-value of the external `scipy.stats.ttest_rel` (line 70) are
modelled from the spec (§4.3 paired_t: one-sample t on the per-pair
differences against null mean 0; §4.4 two_sided); `stats.tstd` is the
sample standard deviation (divisor n−1) of the differences.  The source
computes `confidence_bound = mean_difference - 1.96 * (sd / len(before)**0.5)`
(line 74) with the literal normal critical value 1.96 — the function takes
no confidence-level and no alternative argument. -/
def calculate_and_format_paired_t_test (tCdf : ℚ → ℚ → ℚ) (sq : ℚ → ℚ)
    (before after : List ℚ) : PairedResult :=
  let diffs := List.zipWith (fun b a => b - a) before after
  let n : ℚ := (before.length : ℚ)
  let df := n - 1
  let sd := sq (sampleVar diffs)
  let mean_difference := listMean before - listMean after
  let t_stat := listMean diffs / (sd / sq n)
  { mean_difference := mean_difference,
    confidence_bound := mean_difference - (1.96 * (sd / sq n)),
    sd_of_differences := sd, t_stat := t_stat, df := df,
    p_value := 2 * (1 - tCdf |t_stat| df) }

end PairedT

/-! ## src/app/api/z_test_api.py — two-proportion z-test -/

namespace TwoPropZ

/-- Pooled proportion `p̂ = (n₁p₁ + n₂p₂)/(n₁ + n₂)`
(src/app/api/z_test_api.py line 37). -/
def pooled_p (n1 p1 n2 p2 : ℚ) : ℚ := (n1 * p1 + n2 * p2) / (n1 + n2)

/-- The quantity under the square root of the standard error,
`p̂(1 − p̂)(1/n₁ + 1/n₂)` (src/app/api/z_test_api.py line 38). -/
def pooledVariance (n1 p1 n2 p2 : ℚ) : ℚ :=
  pooled_p n1 p1 n2 p2 * (1 - pooled_p n1 p1 n2 p2) * (1 / n1 + 1 / n2)

/-- The numeric content of the `results` object built by `z_test`
(src/app/api/z_test_api.py lines 55-70). -/
structure PropZResult where
  diff : ℚ
  pooledP : ℚ
  standard_error : ℚ
  z_score : ℚ
  p_value : ℚ
  ci_lower : ℚ
  ci_upper : ℚ
  power : ℚ
  conclusion : String
deriving DecidableEq

/-- Embeds `z_test` (src/app/api/z_test_api.py lines 10-74): pooled
proportion, `SE = √(p̂(1 − p̂)(1/n₁ + 1/n₂))`, `z = (p₁ − p₂)/SE`,
two-tailed `p = 2(1 − Φ(|z|))`, confidence interval around `p₁ − p₂` from
the normal critical value, power `1 − Φ(z_crit − |z|)`, and a conclusion
comparing `p` with `alpha_value` (default 0.05). -/
def z_test (normCdf normPpf : ℚ → ℚ) (sq : ℚ → ℚ)
    (n1 p1 n2 p2 alpha_value confidence_interval : ℚ) : PropZResult :=
  let pp := pooled_p n1 p1 n2 p2
  let standard_error := sq (pooledVariance n1 p1 n2 p2)
  let z_score := (p1 - p2) / standard_error
  let p_value := 2 * (1 - normCdf |z_score|)
  let z_critical := normPpf (1 - (1 - confidence_interval / 100) / 2)
  let margin_of_error := z_critical * standard_error
  { diff := p1 - p2, pooledP := pp, standard_error := standard_error,
    z_score := z_score, p_value := p_value,
    ci_lower := (p1 - p2) - margin_of_error,
    ci_upper := (p1 - p2) + margin_of_error,
    power := 1 - normCdf (z_critical - |z_score|),
    conclusion := if p_value < alpha_value then
        "There is a significant difference in the proportions."
      else "No significant difference in the proportions." }

end TwoPropZ

/-! ## Helper lemmas -/

theorem ratSqrt_pos {q : ℚ} (hq : 0 < q) : 0 < ratSqrt q := by
  unfold ratSqrt
  rw [if_neg (not_le.mpr hq)]
  apply div_pos _ (by exact_mod_cast q.den_pos)
  have hnum : 0 < q.num := Rat.num_pos.mpr hq
  have hden : q.den ≠ 0 := q.den_pos.ne'
  have h1 : 1 ≤ q.num.toNat * q.den :=
    Nat.one_le_iff_ne_zero.mpr (Nat.mul_ne_zero (by omega) hden)
  have h2 : 1 ≤ Nat.sqrt (q.num.toNat * q.den) := Nat.le_sqrt.mpr (by simpa using h1)
  exact_mod_cast Nat.lt_of_lt_of_le Nat.zero_lt_one h2

theorem ratSqrt_nonneg (q : ℚ) : 0 ≤ ratSqrt q := by
  unfold ratSqrt
  by_cases h : q ≤ 0
  · simp [h]
  · rw [if_neg h]
    positivity

theorem sigTPpf_nonneg (p df : ℚ) (h1 : 1/2 ≤ p) (h2 : p < 1) :
    0 ≤ sigTPpf p df := by
  unfold sigTPpf sigPpf
  rw [if_pos h1]
  apply div_nonneg <;> linarith

/-- The `reject iff p below threshold` shape shared by the endpoints'
conclusion strings. -/
theorem reject_iff (P : Prop) [Decidable P] :
    ((if P then "Reject null hypothesis"
      else "Fail to reject null hypothesis") = "Reject null hypothesis") ↔
    P := by
  by_cases h : P <;> simp [h]

/-- The sample variance of a sample with at least two observations is
nonnegative. -/
theorem sampleVar_nonneg (l : List ℚ) (h : 2 ≤ l.length) : 0 ≤ sampleVar l := by
  unfold sampleVar
  apply div_nonneg
  · apply List.sum_nonneg
    intro x hx
    obtain ⟨a, -, rfl⟩ := List.mem_map.mp hx
    positivity
  · have : (2 : ℚ) ≤ (l.length : ℚ) := by exact_mod_cast h
    linarith

/-! ## Claim C1 — confidence-interval ordering -/

/-- C1, counterexample.  The claim says `lower ≤ upper` for every valid
invocation with any alternative in \x7btwo_sided, greater, less\x7d.  It fails:
`calculate_one_sample_t_test` (src/app/api/One_sample_t_test_api.py line 78)
uses `t.ppf(1 − confidence, df)` as the critical value for one-sided
alternatives, which is negative whenever `confidence > 1/2`, so the margin
is negative and the bounds come out reversed.  At sample `[1,2,3]`,
`population_mean = 0`, `alternative = greater`, `confidence = 0.95`, with
the concrete contract-satisfying provider: `lower = 11 > upper = −7`
(in Python: `t.ppf(0.05, 2) < 0` likewise inverts the bounds). -/
theorem c1_counterexample :
    AppTTest.calculate_one_sample_t_test sigTCdf sigTPpf ratSqrt
      [1, 2, 3] 0 "greater" (19/20) =
      Except.ok ⟨3, 2, 1, 2, 2, 1/6, 11, -7⟩ ∧
    ((⟨3, 2, 1, 2, 2, 1/6, 11, -7⟩ : AppTTest.AResult).upper_bound <
      (⟨3, 2, 1, 2, 2, 1/6, 11, -7⟩ : AppTTest.AResult).lower_bound) := by
  constructor
  · simp [AppTTest.calculate_one_sample_t_test, sigTCdf, sigTPpf, sigCdf,
      sigPpf, listMean, sampleVar]
    norm_num [ratSqrt, Int.toNat, abs_of_pos]
  · norm_num

/-- C1, amended: whenever the two-sided critical value is in play the
interval is ordered.  Concretely: (1) the summary-statistics endpoint
`one_sample_t_test` (src/One-sample-t-test_api.py line 94) always uses
`t.ppf((1+confidence)/2, df)`, so every result it returns has
`lower ≤ upper` for every alternative; (2) the raw-sample endpoint
`calculate_one_sample_t_test` returns an ordered interval for the two-sided
alternative — only its one-sided branches can invert the bounds.  Stated for
every quantile function that is nonnegative on `[1/2, 1)` (true of the
Student-t quantile by symmetry, spec §4.1) and every square root that is
nonnegative and positive on positives. -/
theorem c1_ci_ordering (tCdf tPpf : ℚ → ℚ → ℚ) (sq : ℚ → ℚ)
    (hppf : ∀ p df : ℚ, 1/2 ≤ p → p < 1 → 0 ≤ tPpf p df)
    (hsq : ∀ q : ℚ, 0 ≤ q → 0 ≤ sq q)
    (hsqpos : ∀ q : ℚ, 0 < q → 0 < sq q) :
    (∀ (sample_mean population_mean sample_std : ℚ) (sample_size : ℕ)
      (confidence_level : ℚ) (alternative : String)
      (adjustment : Option String) (num_comparisons : ℕ)
      (r : TTestApi.TResult),
      TTestApi.one_sample_t_test tCdf tPpf sq sample_mean population_mean
        sample_std sample_size confidence_level alternative adjustment
        num_comparisons = Except.ok r → r.ci_lower ≤ r.ci_upper) ∧
    (∀ (sample : List ℚ) (population_mean confidence : ℚ)
      (r : AppTTest.AResult), 0 ≤ confidence → confidence < 1 →
      AppTTest.calculate_one_sample_t_test tCdf tPpf sq sample population_mean
        "two-sided" confidence = Except.ok r →
      r.lower_bound ≤ r.upper_bound) := by
  constructor
  · intro sm pm std n c alt adj m r h
    unfold TTestApi.one_sample_t_test at h
    by_cases h1 : n ≤ 1
    · rw [if_pos h1] at h; exact absurd h (by simp)
    rw [if_neg h1] at h
    by_cases h2 : std ≤ 0
    · rw [if_pos h2] at h; exact absurd h (by simp)
    rw [if_neg h2] at h
    by_cases h3 : 0 < c ∧ c < 1
    · rw [if_neg (not_not_intro h3)] at h
      injection h with h
      subst h
      dsimp only
      have hn : (0 : ℚ) < (n : ℚ) := by
        have h4 : 2 ≤ n := by omega
        exact_mod_cast Nat.lt_of_lt_of_le Nat.zero_lt_two h4
      have hstd : 0 < std := lt_of_not_le h2
      have hcrit : 0 ≤ tPpf ((1 + c) / 2) ((n : ℚ) - 1) :=
        hppf _ _ (by linarith [h3.1]) (by linarith [h3.2])
      have hmargin : 0 ≤ tPpf ((1 + c) / 2) ((n : ℚ) - 1) * (std / sq (n : ℚ)) :=
        mul_nonneg hcrit (div_nonneg hstd.le (hsqpos _ hn).le)
      linarith
    · rw [if_pos h3] at h; exact absurd h (by simp)
  · intro sample pm c r hc0 hc1 h
    unfold AppTTest.calculate_one_sample_t_test at h
    by_cases h1 : sample.length < 2
    · rw [if_pos h1] at h; exact absurd h (by simp)
    rw [if_neg h1] at h
    simp only [] at h
    rw [if_neg (show ¬(("two-sided" : String) = "greater" ∨
        ("two-sided" : String) = "less") by simp)] at h
    injection h with h
    subst h
    dsimp only
    have hlen : 2 ≤ sample.length := by omega
    have hn : (0 : ℚ) < (sample.length : ℚ) := by
      exact_mod_cast Nat.lt_of_lt_of_le Nat.zero_lt_two hlen
    have hstd : 0 ≤ sq (sampleVar sample) := hsq _ (sampleVar_nonneg _ hlen)
    have hcrit : 0 ≤ tPpf (1 - (1 - c) / 2) ((sample.length : ℚ) - 1) :=
      hppf _ _ (by linarith) (by linarith)
    have hmargin : 0 ≤ tPpf (1 - (1 - c) / 2) ((sample.length : ℚ) - 1) *
        (sq (sampleVar sample) / sq (sample.length : ℚ)) :=
      mul_nonneg hcrit (div_nonneg hstd (hsqpos _ hn).le)
    linarith

/-- C1 witness: the amended theorem applied at the concrete scenario of
spec §8 (mean 105, μ₀ 100, std 15, n 25, two-sided, confidence 0.95) with
the concrete provider instances. -/
theorem c1_ci_ordering_witness :
    TTestApi.one_sample_t_test sigTCdf sigTPpf ratSqrt 105 100 15 25 (19/20)
      "not_equal" none 1 =
      Except.ok ⟨5/3, 3/8, 24, 48, 162, "Fail to reject null hypothesis"⟩ ∧
    ((⟨5/3, 3/8, 24, 48, 162, "Fail to reject null hypothesis"⟩ :
      TTestApi.TResult).ci_lower ≤
     (⟨5/3, 3/8, 24, 48, 162, "Fail to reject null hypothesis"⟩ :
      TTestApi.TResult).ci_upper) := by
  have heval : TTestApi.one_sample_t_test sigTCdf sigTPpf ratSqrt 105 100 15 25
      (19/20) "not_equal" none 1 =
      Except.ok ⟨5/3, 3/8, 24, 48, 162, "Fail to reject null hypothesis"⟩ := by
    simp [TTestApi.one_sample_t_test, sigTCdf, sigTPpf, sigCdf, sigPpf]
    norm_num [ratSqrt, Int.toNat, abs_of_pos]
  exact ⟨heval,
    (c1_ci_ordering sigTCdf sigTPpf ratSqrt sigTPpf_nonneg
      (fun q _ => ratSqrt_nonneg q) (fun q hq => ratSqrt_pos hq)).1
      105 100 15 25 (19/20) "not_equal" none 1 _ heval⟩

/-! ## Claim C2 — degrees of freedom in the two-sample t-test -/

/-- C2, counterexample.  The claim says the df used for the
confidence-interval critical value equals the Welch–Satterthwaite value.
It fails: the source sets `df = len(group1) + len(group2) - 2` (line 51)
and feeds that pooled value to `t.ppf` for the CI (line 54).  With a
quantile stand-in that returns its df argument, the margin visibly equals
`4 · std_err` at groups `[0,1,2]` / `[0,10,20]` (pooled df 4), while the
Welch value at these samples (variances 1 and 100) is
`20402/10001 ≈ 2.04 ≠ 4`. -/
theorem c2_counterexample :
    (TwoSampleT.calculate_and_format_two_sample_t_test sigTCdf (fun _ df => df)
      ratSqrt [0, 1, 2] [0, 10, 20] "two-sided" (19/20)).df = 4 ∧
    (TwoSampleT.calculate_and_format_two_sample_t_test sigTCdf (fun _ df => df)
      ratSqrt [0, 1, 2] [0, 10, 20] "two-sided" (19/20)).upper_bound -
      (TwoSampleT.calculate_and_format_two_sample_t_test sigTCdf (fun _ df => df)
        ratSqrt [0, 1, 2] [0, 10, 20] "two-sided" (19/20)).mean_difference =
      4 * (TwoSampleT.calculate_and_format_two_sample_t_test sigTCdf
        (fun _ df => df) ratSqrt [0, 1, 2] [0, 10, 20] "two-sided"
          (19/20)).std_err ∧
    TwoSampleT.welchDF (sampleVar [0, 1, 2]) 3 (sampleVar [0, 10, 20]) 3 =
      20402/10001 ∧
    (20402/10001 : ℚ) ≠ 4 := by
  refine ⟨?_, ?_, ?_, by norm_num⟩
  · simp [TwoSampleT.calculate_and_format_two_sample_t_test]
    norm_num
  · simp [TwoSampleT.calculate_and_format_two_sample_t_test]
    left
    norm_num
  · norm_num [TwoSampleT.welchDF, sampleVar, listMean]

/-- C2, amended: the p-value of `calculate_and_format_two_sample_t_test`
is computed (inside `scipy.stats.ttest_ind(equal_var=False)`) at the
Welch–Satterthwaite df, but the reported `df` field and the
confidence-interval critical value use the pooled value
`len(group1) + len(group2) − 2`. -/
theorem c2_pooled_df_for_ci (tCdf tPpf : ℚ → ℚ → ℚ) (sq : ℚ → ℚ)
    (group1 group2 : List ℚ) (alternative : String) (confidence : ℚ) :
    (TwoSampleT.calculate_and_format_two_sample_t_test tCdf tPpf sq group1
      group2 alternative confidence).df =
      (group1.length : ℚ) + (group2.length : ℚ) - 2 ∧
    (TwoSampleT.calculate_and_format_two_sample_t_test tCdf tPpf sq group1
      group2 alternative confidence).upper_bound -
      (TwoSampleT.calculate_and_format_two_sample_t_test tCdf tPpf sq group1
        group2 alternative confidence).lower_bound =
      2 * tPpf (1 - (1 - confidence) / 2)
          ((group1.length : ℚ) + (group2.length : ℚ) - 2) *
        (TwoSampleT.calculate_and_format_two_sample_t_test tCdf tPpf sq group1
          group2 alternative confidence).std_err ∧
    (TwoSampleT.calculate_and_format_two_sample_t_test tCdf tPpf sq group1
      group2 "two-sided" confidence).p_value =
      2 * (1 - tCdf
        |(TwoSampleT.calculate_and_format_two_sample_t_test tCdf tPpf sq group1
          group2 "two-sided" confidence).t_stat|
        (TwoSampleT.welchDF (sampleVar group1) (group1.length : ℚ)
          (sampleVar group2) (group2.length : ℚ))) := by
  refine ⟨?_, ?_, ?_⟩
  · simp [TwoSampleT.calculate_and_format_two_sample_t_test]
  · simp [TwoSampleT.calculate_and_format_two_sample_t_test]
    ring
  · simp [TwoSampleT.calculate_and_format_two_sample_t_test]

/-! ## Claim C3 — unknown enumeration values -/

/-- C3, counterexample.  The claim says an `alternative` or `adjustment`
string outside the documented enumerations is rejected with a validation
error.  It fails three times over: the summary t endpoint treats the
unknown alternative `banana` exactly like its two-tailed default
(src/One-sample-t-test_api.py line 80, bare `else`), an unknown adjustment
string is silently ignored (lines 84-87 have no `else` error branch), and
the two-sample z endpoint treats the unknown alternative `XYZ` as the
`greater` branch (src/app/api/two_sample_z_test_api.py line 56). -/
theorem c3_counterexample :
    TTestApi.one_sample_t_test sigTCdf sigTPpf ratSqrt 105 100 15 25 (19/20)
      "banana" none 1 =
      TTestApi.one_sample_t_test sigTCdf sigTPpf ratSqrt 105 100 15 25 (19/20)
        "not_equal" none 1 ∧
    (TTestApi.one_sample_t_test sigTCdf sigTPpf ratSqrt 105 100 15 25 (19/20)
      "banana" none 1).isOk = true ∧
    TTestApi.one_sample_t_test sigTCdf sigTPpf ratSqrt 105 100 15 25 (19/20)
      "not_equal" (some "banana") 3 =
      TTestApi.one_sample_t_test sigTCdf sigTPpf ratSqrt 105 100 15 25 (19/20)
        "not_equal" none 1 ∧
    TwoSampleZApp.two_sample_z_p_value sigCdf 1 "XYZ" = 1 - sigCdf 1 := by
  have heval : TTestApi.one_sample_t_test sigTCdf sigTPpf ratSqrt 105 100 15 25
      (19/20) "not_equal" none 1 =
      Except.ok ⟨5/3, 3/8, 24, 48, 162, "Fail to reject null hypothesis"⟩ := by
    simp [TTestApi.one_sample_t_test, sigTCdf, sigTPpf, sigCdf, sigPpf]
    norm_num [ratSqrt, Int.toNat, abs_of_pos]
  have hbanana : TTestApi.one_sample_t_test sigTCdf sigTPpf ratSqrt 105 100 15
      25 (19/20) "banana" none 1 =
      Except.ok ⟨5/3, 3/8, 24, 48, 162, "Fail to reject null hypothesis"⟩ := by
    simp [TTestApi.one_sample_t_test, sigTCdf, sigTPpf, sigCdf, sigPpf]
    norm_num [ratSqrt, Int.toNat, abs_of_pos]
  have hadj : TTestApi.one_sample_t_test sigTCdf sigTPpf ratSqrt 105 100 15 25
      (19/20) "not_equal" (some "banana") 3 =
      Except.ok ⟨5/3, 3/8, 24, 48, 162, "Fail to reject null hypothesis"⟩ := by
    simp [TTestApi.one_sample_t_test, sigTCdf, sigTPpf, sigCdf, sigPpf]
    norm_num [ratSqrt, Int.toNat, abs_of_pos]
  refine ⟨heval ▸ hbanana, by rw [hbanana]; rfl, heval ▸ hadj, ?_⟩
  have hup : ¬ (pyUpper "XYZ" = "NE") := by decide
  have hup2 : ¬ (pyUpper "XYZ" = "LT") := by decide
  simp [TwoSampleZApp.two_sample_z_p_value, hup, hup2]

/-- C3, amended: unknown enumeration values are silently defaulted, not
rejected — an unrecognized `alternative` at the summary t endpoint behaves
exactly like the two-tailed default, an unrecognized `adjustment` is a
no-op, and an unrecognized `alternative` at the two-sample z endpoint takes
the `greater` branch; only the two-sample t-test validator
(`validate_two_sample_t_test_input` in src/app/utils.py) rejects an unknown
alternative with an error. -/
theorem c3_silent_default (tCdf tPpf : ℚ → ℚ → ℚ) (sq : ℚ → ℚ) :
    (∀ (sm pm std : ℚ) (n : ℕ) (c : ℚ) (alt : String) (adj : Option String)
      (m : ℕ), alt ≠ "greater" → alt ≠ "less" →
      TTestApi.one_sample_t_test tCdf tPpf sq sm pm std n c alt adj m =
      TTestApi.one_sample_t_test tCdf tPpf sq sm pm std n c "not_equal" adj m) ∧
    (∀ (adj : Option String) (m : ℕ) (p : ℚ), adj ≠ some "bonferroni" →
      adj ≠ some "dunn_sidak" → TTestApi.applyAdjustment adj m p = p) ∧
    (∀ (normCdf : ℚ → ℚ) (z : ℚ) (alt : String), pyUpper alt ≠ "NE" →
      pyUpper alt ≠ "LT" →
      TwoSampleZApp.two_sample_z_p_value normCdf z alt = 1 - normCdf z) ∧
    (∀ (group1 group2 : List ℚ) (alt : String) (c : ℚ),
      2 ≤ group1.length → 2 ≤ group2.length → alt ≠ "two-sided" →
      alt ≠ "greater" → alt ≠ "less" →
      Utils.validate_two_sample_t_test_input group1 group2 alt c =
      Except.error
        "Invalid alternative hypothesis. Choose from two-sided, greater, or less.") := by
  refine ⟨?_, ?_, ?_, ?_⟩
  · intro sm pm std n c alt adj m h1 h2
    simp [TTestApi.one_sample_t_test, h1, h2]
  · intro adj m p h1 h2
    simp [TTestApi.applyAdjustment, h1, h2]
  · intro normCdf z alt h1 h2
    simp [TwoSampleZApp.two_sample_z_p_value, h1, h2]
  · intro g1 g2 alt c hl1 hl2 h1 h2 h3
    unfold Utils.validate_two_sample_t_test_input
    rw [if_neg (by omega), if_pos (by simp [h1, h2, h3])]

/-- C3 witness: the amended theorem at the concrete unknown strings
`banana` / `XYZ`. -/
theorem c3_silent_default_witness :
    TTestApi.one_sample_t_test sigTCdf sigTPpf ratSqrt 105 100 15 25 (19/20)
      "banana" none 1 =
      TTestApi.one_sample_t_test sigTCdf sigTPpf ratSqrt 105 100 15 25 (19/20)
        "not_equal" none 1 ∧
    TTestApi.applyAdjustment (some "banana") 3 (3/8) = 3/8 ∧
    TwoSampleZApp.two_sample_z_p_value sigCdf 1 "XYZ" = 1 - sigCdf 1 ∧
    Utils.validate_two_sample_t_test_input [0, 1] [2, 3] "banana" (19/20) =
      Except.error
        "Invalid alternative hypothesis. Choose from two-sided, greater, or less." :=
  ⟨(c3_silent_default sigTCdf sigTPpf ratSqrt).1 105 100 15 25 (19/20) "banana"
      none 1 (by simp) (by simp),
   (c3_silent_default sigTCdf sigTPpf ratSqrt).2.1 (some "banana") 3 (3/8)
      (by simp) (by simp),
   (c3_silent_default sigTCdf sigTPpf ratSqrt).2.2.1 sigCdf 1 "XYZ"
      (by decide) (by decide),
   (c3_silent_default sigTCdf sigTPpf ratSqrt).2.2.2 [0, 1] [2, 3] "banana"
      (19/20) (by simp) (by simp) (by simp) (by simp) (by simp)⟩

/-! ## Claim C4 — Bonferroni and Šidák adjustments -/

/-- C4: for `p ∈ [0,1]` and `num_comparisons ≥ 1`, the adjustment step of
the summary t endpoint computes `min(p·m, 1)` for `bonferroni` and
`min(1 − (1 − p)^m, 1)` for `dunn_sidak` (the source's name for Šidák);
both are `≥ p`, equal `p` at `m = 1`, and are monotone non-decreasing
in `m`. -/
theorem c4_adjustments (p : ℚ) (m : ℕ) (hp0 : 0 ≤ p) (hp1 : p ≤ 1)
    (hm : 1 ≤ m) :
    TTestApi.applyAdjustment (some "bonferroni") m p = min (p * (m : ℚ)) 1 ∧
    TTestApi.applyAdjustment (some "dunn_sidak") m p =
      min (1 - (1 - p) ^ m) 1 ∧
    p ≤ TTestApi.applyAdjustment (some "bonferroni") m p ∧
    p ≤ TTestApi.applyAdjustment (some "dunn_sidak") m p ∧
    (m = 1 → TTestApi.applyAdjustment (some "bonferroni") m p = p ∧
      TTestApi.applyAdjustment (some "dunn_sidak") m p = p) ∧
    (∀ m' : ℕ, m ≤ m' →
      TTestApi.applyAdjustment (some "bonferroni") m p ≤
        TTestApi.applyAdjustment (some "bonferroni") m' p ∧
      TTestApi.applyAdjustment (some "dunn_sidak") m p ≤
        TTestApi.applyAdjustment (some "dunn_sidak") m' p) := by
  have hbon : ∀ k : ℕ, 1 ≤ k →
      TTestApi.applyAdjustment (some "bonferroni") k p = min (p * (k : ℚ)) 1 := by
    intro k hk
    unfold TTestApi.applyAdjustment
    rcases Nat.lt_or_ge 1 k with hk1 | hk1
    · rw [if_pos ⟨rfl, hk1⟩]
    · have hk2 : k = 1 := le_antisymm hk1 hk
      subst hk2
      simp [min_eq_left hp1]
  have hsid : ∀ k : ℕ, 1 ≤ k →
      TTestApi.applyAdjustment (some "dunn_sidak") k p =
        min (1 - (1 - p) ^ k) 1 := by
    intro k hk
    unfold TTestApi.applyAdjustment
    rcases Nat.lt_or_ge 1 k with hk1 | hk1
    · rw [if_neg (by simp), if_pos ⟨rfl, hk1⟩]
    · have hk2 : k = 1 := le_antisymm hk1 hk
      subst hk2
      simp [min_eq_left hp1]
  have hq0 : (0 : ℚ) ≤ 1 - p := by linarith
  have hq1 : (1 : ℚ) - p ≤ 1 := by linarith
  refine ⟨hbon m hm, hsid m hm, ?_, ?_, ?_, ?_⟩
  · rw [hbon m hm]
    have h1 : p ≤ p * (m : ℚ) :=
      le_mul_of_one_le_right hp0 (by exact_mod_cast hm)
    exact le_min h1 hp1
  · rw [hsid m hm]
    have h1 : (1 - p) ^ m ≤ 1 - p := pow_le_of_le_one hq0 hq1 (by omega)
    exact le_min (by linarith) hp1
  · intro hm1
    subst hm1
    constructor
    · rw [hbon 1 le_rfl]
      simp [min_eq_left hp1]
    · rw [hsid 1 le_rfl]
      simp [min_eq_left hp1]
  · intro m' hmm
    have hm' : 1 ≤ m' := le_trans hm hmm
    constructor
    · rw [hbon m hm, hbon m' hm']
      apply min_le_min _ le_rfl
      exact mul_le_mul_of_nonneg_left (by exact_mod_cast hmm) hp0
    · rw [hsid m hm, hsid m' hm']
      apply min_le_min _ le_rfl
      have h1 : (1 - p) ^ m' ≤ (1 - p) ^ m :=
        pow_le_pow_of_le_one hq0 hq1 hmm
      linarith

/-- C4 witness: spec §8 scenario 4 — raw p 0.04, three comparisons,
Bonferroni-adjusted p 0.12. -/
theorem c4_adjustments_witness :
    TTestApi.applyAdjustment (some "bonferroni") 3 (1/25) =
      min ((1/25) * ((3 : ℕ) : ℚ)) 1 ∧
    (1/25 : ℚ) ≤ TTestApi.applyAdjustment (some "dunn_sidak") 3 (1/25) :=
  ⟨(c4_adjustments (1/25) 3 (by norm_num) (by norm_num) (by norm_num)).1,
   (c4_adjustments (1/25) 3 (by norm_num) (by norm_num)
      (by norm_num)).2.2.2.1⟩

/-! ## Claim C5 — rejection threshold -/

/-- C5, counterexample.  The claim says every completed test concludes
reject_null iff `adjusted_p_value < 1 − confidence_level` with the
caller-supplied confidence level.  It fails at the standalone one-sample z
endpoint (src/z_test_api.py line 47): the conclusion always compares
against the literal 0.05 and no confidence field is ever read.  Here the
caller supplies `confidence_level = 1/2`, the p-value is `1/10 < 1 − 1/2`,
yet the endpoint fails to reject because `1/10 ≥ 0.05`. -/
theorem c5_counterexample :
    ZTestApi.one_sample_z_test sigCdf ratSqrt
      { sample_mean := 9, population_mean := 0, standard_deviation := 1,
        sample_size := 1, alternative := none,
        confidence_level := some (1/2) } =
      Except.ok ⟨9, 1/10, "Fail to reject null hypothesis"⟩ ∧
    (1/10 : ℚ) < 1 - 1/2 ∧
    ("Fail to reject null hypothesis" : String) ≠ "Reject null hypothesis" := by
  refine ⟨?_, by norm_num, by simp⟩
  simp [ZTestApi.one_sample_z_test, sigCdf]
  norm_num [ratSqrt, Int.toNat, abs_of_pos]

/-- C5, amended: the summary t endpoint concludes reject_null iff its
(post-adjustment) p-value is below `1 − confidence_level`; the standalone
one-sample z endpoint instead concludes reject_null iff its (two-sided,
unadjusted) p-value is below the fixed 0.05, ignoring any supplied
confidence level. -/
theorem c5_conclusion_threshold (tCdf tPpf : ℚ → ℚ → ℚ) (normCdf : ℚ → ℚ)
    (sq : ℚ → ℚ) :
    (∀ (sm pm std : ℚ) (n : ℕ) (c : ℚ) (alt : String) (adj : Option String)
      (m : ℕ) (r : TTestApi.TResult),
      TTestApi.one_sample_t_test tCdf tPpf sq sm pm std n c alt adj m =
        Except.ok r →
      (r.conclusion = "Reject null hypothesis" ↔ r.p_value < 1 - c)) ∧
    (∀ (req : ZTestApi.ZRequest) (r : ZTestApi.ZResult),
      ZTestApi.one_sample_z_test normCdf sq req = Except.ok r →
      (r.conclusion = "Reject null hypothesis" ↔ r.p_value < 0.05)) := by
  constructor
  · intro sm pm std n c alt adj m r h
    unfold TTestApi.one_sample_t_test at h
    by_cases h1 : n ≤ 1
    · rw [if_pos h1] at h; exact absurd h (by simp)
    rw [if_neg h1] at h
    by_cases h2 : std ≤ 0
    · rw [if_pos h2] at h; exact absurd h (by simp)
    rw [if_neg h2] at h
    by_cases h3 : 0 < c ∧ c < 1
    · rw [if_neg (not_not_intro h3)] at h
      injection h with h
      subst h
      dsimp only
      exact reject_iff _
    · rw [if_pos h3] at h; exact absurd h (by simp)
  · intro req r h
    unfold ZTestApi.one_sample_z_test at h
    by_cases h1 : req.sample_size ≤ 0
    · rw [if_pos h1] at h; exact absurd h (by simp)
    rw [if_neg h1] at h
    by_cases h2 : req.standard_deviation ≤ 0
    · rw [if_pos h2] at h; exact absurd h (by simp)
    rw [if_neg h2] at h
    injection h with h
    subst h
    dsimp only
    exact reject_iff _

/-- C5 witness: the amended theorem at concrete inputs for both endpoints. -/
theorem c5_conclusion_threshold_witness :
    (("Fail to reject null hypothesis" : String) = "Reject null hypothesis" ↔
      (3/8 : ℚ) < 1 - 19/20) ∧
    (("Fail to reject null hypothesis" : String) = "Reject null hypothesis" ↔
      (1/10 : ℚ) < 0.05) := by
  have heval : TTestApi.one_sample_t_test sigTCdf sigTPpf ratSqrt 105 100 15 25
      (19/20) "not_equal" none 1 =
      Except.ok ⟨5/3, 3/8, 24, 48, 162, "Fail to reject null hypothesis"⟩ := by
    simp [TTestApi.one_sample_t_test, sigTCdf, sigTPpf, sigCdf, sigPpf]
    norm_num [ratSqrt, Int.toNat, abs_of_pos]
  have hzeval : ZTestApi.one_sample_z_test sigCdf ratSqrt
      { sample_mean := 9, population_mean := 0, standard_deviation := 1,
        sample_size := 1, alternative := none, confidence_level := none } =
      Except.ok ⟨9, 1/10, "Fail to reject null hypothesis"⟩ := by
    simp [ZTestApi.one_sample_z_test, sigCdf]
    norm_num [ratSqrt, Int.toNat, abs_of_pos]
  exact ⟨(c5_conclusion_threshold sigTCdf sigTPpf sigCdf ratSqrt).1
      105 100 15 25 (19/20) "not_equal" none 1 _ heval,
    (c5_conclusion_threshold sigTCdf sigTPpf sigCdf ratSqrt).2 _ _ hzeval⟩

/-! ## Claim C6 — zero standard deviation -/

/-- C6, counterexample.  The claim says every input with zero (or negative)
sample standard deviation fails with a NumericalError before any result is
produced.  It fails at the raw-sample endpoint: `calculate_one_sample_t_test`
(src/app/api/One_sample_t_test_api.py) checks only the sample size, so the
constant sample `[5,5,5]` (sample std 0) sails through and a result is
returned.  (In Python the zero division yields an infinite statistic inside
a 200 response, never an exception; in this ℚ embedding the division by
zero yields 0 — either way a result record is produced, which is what the
theorem asserts.) -/
theorem c6_counterexample :
    sampleVar [5, 5, 5] = 0 ∧
    AppTTest.calculate_one_sample_t_test sigTCdf sigTPpf ratSqrt [5, 5, 5] 3
      "two-sided" (19/20) = Except.ok ⟨3, 5, 0, 2, 0, 1, 5, 5⟩ := by
  constructor
  · norm_num [sampleVar, listMean]
  · simp [AppTTest.calculate_one_sample_t_test, sigTCdf, sigTPpf, sigCdf,
      sigPpf, listMean, sampleVar]
    norm_num [ratSqrt, Int.toNat]

/-- C6, amended: only the summary-statistics endpoint rejects a
non-positive standard deviation (with an error naming it) before computing
anything; the raw-sample endpoint has no standard-deviation guard and
returns a result even for a zero-variance sample. -/
theorem c6_std_validation (tCdf tPpf : ℚ → ℚ → ℚ) (sq : ℚ → ℚ) :
    (∀ (sm pm std : ℚ) (n : ℕ) (c : ℚ) (alt : String) (adj : Option String)
      (m : ℕ), ¬ n ≤ 1 → std ≤ 0 →
      TTestApi.one_sample_t_test tCdf tPpf sq sm pm std n c alt adj m =
        Except.error "Sample standard deviation must be greater than zero.") ∧
    (∀ (sample : List ℚ) (pm : ℚ) (alt : String) (c : ℚ),
      2 ≤ sample.length → sampleVar sample = 0 →
      (AppTTest.calculate_one_sample_t_test tCdf tPpf sq sample pm alt
        c).isOk = true) := by
  constructor
  · intro sm pm std n c alt adj m h1 h2
    unfold TTestApi.one_sample_t_test
    rw [if_neg h1, if_pos h2]
  · intro sample pm alt c hlen hvar
    unfold AppTTest.calculate_one_sample_t_test
    rw [if_neg (by omega)]
    rfl

/-- C6 witness: the amended theorem at `std = 0` summary input and at the
constant raw sample `[5,5,5]`. -/
theorem c6_std_validation_witness :
    TTestApi.one_sample_t_test sigTCdf sigTPpf ratSqrt 105 100 0 25 (19/20)
      "not_equal" none 1 =
      Except.error "Sample standard deviation must be greater than zero." ∧
    (AppTTest.calculate_one_sample_t_test sigTCdf sigTPpf ratSqrt [5, 5, 5] 3
      "two-sided" (19/20)).isOk = true :=
  ⟨(c6_std_validation sigTCdf sigTPpf ratSqrt).1 105 100 0 25 (19/20)
      "not_equal" none 1 (by omega) le_rfl,
   (c6_std_validation sigTCdf sigTPpf ratSqrt).2 [5, 5, 5] 3 "two-sided"
      (19/20) (by simp) (by norm_num [sampleVar, listMean])⟩

/-! ## Claim C7 — confidence level out of range -/

/-- C7, counterexample.  The claim says every request with
`confidence_level` outside `(0,1)` fails with a validation error naming the
field.  It fails at the raw-sample endpoint: `one_sample_ttest` and
`calculate_one_sample_t_test` (src/app/api/One_sample_t_test_api.py)
perform no confidence-level check, so `confidence = 1.2` produces a result.
(In Python `t.ppf(1.1, df)` is NaN and the 200 response carries NaN bounds;
in this embedding the stand-in quantile returns a rational garbage value —
either way a result is produced rather than an error.) -/
theorem c7_counterexample :
    ¬ (0 < (6/5 : ℚ) ∧ (6/5 : ℚ) < 1) ∧
    AppTTest.calculate_one_sample_t_test sigTCdf sigTPpf ratSqrt [1, 2, 3] 0
      "two-sided" (6/5) = Except.ok ⟨3, 2, 1, 2, 2, 1/3, 8, -4⟩ := by
  refine ⟨by norm_num, ?_⟩
  simp [AppTTest.calculate_one_sample_t_test, sigTCdf, sigTPpf, sigCdf,
    sigPpf, listMean, sampleVar]
  norm_num [ratSqrt, Int.toNat, abs_of_pos]

/-- C7, amended: the summary-statistics endpoint rejects a confidence level
outside the open interval `(0,1)` with an error naming it, before any
computation; the raw-sample endpoint performs no confidence-level
validation and returns a result for any confidence value whatsoever. -/
theorem c7_confidence_validation (tCdf tPpf : ℚ → ℚ → ℚ) (sq : ℚ → ℚ) :
    (∀ (sm pm std : ℚ) (n : ℕ) (c : ℚ) (alt : String) (adj : Option String)
      (m : ℕ), ¬ n ≤ 1 → ¬ std ≤ 0 → ¬ (0 < c ∧ c < 1) →
      TTestApi.one_sample_t_test tCdf tPpf sq sm pm std n c alt adj m =
        Except.error "Confidence level must be between 0 and 1 (exclusive).") ∧
    (∀ (sample : List ℚ) (pm : ℚ) (alt : String) (c : ℚ),
      2 ≤ sample.length →
      (AppTTest.calculate_one_sample_t_test tCdf tPpf sq sample pm alt
        c).isOk = true) := by
  constructor
  · intro sm pm std n c alt adj m h1 h2 h3
    unfold TTestApi.one_sample_t_test
    rw [if_neg h1, if_neg h2, if_pos h3]
  · intro sample pm alt c hlen
    unfold AppTTest.calculate_one_sample_t_test
    rw [if_neg (by omega)]
    rfl

/-- C7 witness: the amended theorem at `confidence_level = 1.2` for both
endpoints (spec §8 scenario 5). -/
theorem c7_confidence_validation_witness :
    TTestApi.one_sample_t_test sigTCdf sigTPpf ratSqrt 105 100 15 25 (6/5)
      "not_equal" none 1 =
      Except.error "Confidence level must be between 0 and 1 (exclusive)." ∧
    (AppTTest.calculate_one_sample_t_test sigTCdf sigTPpf ratSqrt [1, 2, 3] 0
      "two-sided" (6/5)).isOk = true :=
  ⟨(c7_confidence_validation sigTCdf sigTPpf ratSqrt).1 105 100 15 25 (6/5)
      "not_equal" none 1 (by omega) (by norm_num) (by norm_num),
   (c7_confidence_validation sigTCdf sigTPpf ratSqrt).2 [1, 2, 3] 0
      "two-sided" (6/5) (by simp)⟩

/-! ## Claim C8 — two-proportion z-test formulas and concrete scenario -/

/-- C8: the two-proportion z-test computes `z = (p₁ − p₂)/SE` with
`p̂ = (n₁p₁ + n₂p₂)/(n₁ + n₂)` and `SE = √(p̂(1 − p̂)(1/n₁ + 1/n₂))`, and a
two-tailed p-value; at `n1 = 40, p1 = 0.3, n2 = 60, p2 = 0.7` the pooled
proportion is exactly `0.54`, the quantity under the square root is exactly
`207/20000 = 0.01035` (so `SE ≈ 0.1017`, bracketed here by squares), the
statistic lies in `(−3.94, −3.93)`, and whenever the resulting p-value is
below the default `alpha = 0.05` (as it is for the true normal CDF,
`p ≈ 0.00008`) the conclusion is the reject-null sentence.  The standard
error bracket hypothesis is satisfied by any square root of `207/20000`
lying in `[0.1017, 0.10175]` — in particular the true one, since
`0.1017² < 207/20000 < 0.10175²` is proved below. -/
theorem c8_two_prop_z (normCdf normPpf : ℚ → ℚ) (sq : ℚ → ℚ)
    (hse1 : 1017/10000 ≤ sq (TwoPropZ.pooledVariance 40 (3/10) 60 (7/10)))
    (hse2 : sq (TwoPropZ.pooledVariance 40 (3/10) 60 (7/10)) ≤ 10175/100000)
    (hp : (TwoPropZ.z_test normCdf normPpf sq 40 (3/10) 60 (7/10) (1/20)
      95).p_value < 1/20) :
    (∀ n1 p1 n2 p2 a ci : ℚ,
      (TwoPropZ.z_test normCdf normPpf sq n1 p1 n2 p2 a ci).z_score =
        (p1 - p2) / sq (TwoPropZ.pooledVariance n1 p1 n2 p2) ∧
      (TwoPropZ.z_test normCdf normPpf sq n1 p1 n2 p2 a ci).p_value =
        2 * (1 - normCdf
          |(TwoPropZ.z_test normCdf normPpf sq n1 p1 n2 p2 a ci).z_score|)) ∧
    TwoPropZ.pooled_p 40 (3/10) 60 (7/10) = 27/50 ∧
    TwoPropZ.pooledVariance 40 (3/10) 60 (7/10) = 207/20000 ∧
    (1017/10000 : ℚ) ^ 2 < 207/20000 ∧
    (207/20000 : ℚ) < (10175/100000 : ℚ) ^ 2 ∧
    (-3.94 : ℚ) < (TwoPropZ.z_test normCdf normPpf sq 40 (3/10) 60 (7/10)
      (1/20) 95).z_score ∧
    (TwoPropZ.z_test normCdf normPpf sq 40 (3/10) 60 (7/10) (1/20)
      95).z_score < (-3.93 : ℚ) ∧
    (TwoPropZ.z_test normCdf normPpf sq 40 (3/10) 60 (7/10) (1/20)
      95).conclusion =
      "There is a significant difference in the proportions." := by
  have hS : (0 : ℚ) < sq (TwoPropZ.pooledVariance 40 (3/10) 60 (7/10)) :=
    lt_of_lt_of_le (by norm_num) hse1
  have hz : (TwoPropZ.z_test normCdf normPpf sq 40 (3/10) 60 (7/10) (1/20)
      95).z_score =
      (3/10 - 7/10) / sq (TwoPropZ.pooledVariance 40 (3/10) 60 (7/10)) := by
    unfold TwoPropZ.z_test
    dsimp only
  refine ⟨?_, by norm_num [TwoPropZ.pooled_p],
    by norm_num [TwoPropZ.pooledVariance, TwoPropZ.pooled_p],
    by norm_num, by norm_num, ?_, ?_, ?_⟩
  · intro n1 p1 n2 p2 a ci
    unfold TwoPropZ.z_test
    exact ⟨rfl, rfl⟩
  · rw [hz]
    rw [show (3/10 : ℚ) - 7/10 = -2/5 by norm_num, lt_div_iff₀ hS]
    linarith
  · rw [hz]
    rw [show (3/10 : ℚ) - 7/10 = -2/5 by norm_num, div_lt_iff₀ hS]
    linarith
  · unfold TwoPropZ.z_test at hp ⊢
    dsimp only at hp ⊢
    rw [if_pos hp]

/-- C8 witness: the theorem instantiated with the concrete thin-tailed
provider CDF and the rational square root, whose value at `207/20000` is
exactly `1017/10000`. -/
theorem c8_two_prop_z_witness :
    (TwoPropZ.z_test quarticCdf sigPpf ratSqrt 40 (3/10) 60 (7/10) (1/20)
      95).conclusion =
      "There is a significant difference in the proportions." ∧
    TwoPropZ.pooled_p 40 (3/10) 60 (7/10) = 27/50 := by
  have hrs : ratSqrt (TwoPropZ.pooledVariance 40 (3/10) 60 (7/10)) =
      1017/10000 := by
    norm_num [TwoPropZ.pooledVariance, TwoPropZ.pooled_p, ratSqrt, Int.toNat]
  have hp : (TwoPropZ.z_test quarticCdf sigPpf ratSqrt 40 (3/10) 60 (7/10)
      (1/20) 95).p_value < 1/20 := by
    unfold TwoPropZ.z_test
    dsimp only
    rw [hrs]
    norm_num [quarticCdf, abs_of_neg]
  exact ⟨(c8_two_prop_z quarticCdf sigPpf ratSqrt (by rw [hrs])
      (by rw [hrs]; norm_num) hp).2.2.2.2.2.2.2,
    (c8_two_prop_z quarticCdf sigPpf ratSqrt (by rw [hrs])
      (by rw [hrs]; norm_num) hp).2.1⟩

/-! ## Claim C9 — paired t-test single fixed-1.96 lower bound -/

/-- C9: the paired t-test result carries a single confidence bound equal to
`mean_difference − 1.96·(sd_of_differences/√n)`, built from the literal
normal critical value 1.96 (the function takes no confidence-level
argument, and the `PairedResult` record has no upper-bound field), while
the reported p-value is the two-sided `2(1 − F(|t|, df))`; the bound does
not depend on the distribution provider at all (so in particular not on the
sample's degrees of freedom through it). -/
theorem c9_paired_bound (tCdf : ℚ → ℚ → ℚ) (sq : ℚ → ℚ)
    (before after : List ℚ) :
    (PairedT.calculate_and_format_paired_t_test tCdf sq before
      after).confidence_bound =
      (PairedT.calculate_and_format_paired_t_test tCdf sq before
        after).mean_difference -
      (1.96 : ℚ) * (sq (sampleVar (List.zipWith (fun b a => b - a) before
        after)) / sq (before.length : ℚ)) ∧
    (PairedT.calculate_and_format_paired_t_test tCdf sq before
      after).p_value =
      2 * (1 - tCdf
        |(PairedT.calculate_and_format_paired_t_test tCdf sq before
          after).t_stat| ((before.length : ℚ) - 1)) ∧
    (∀ tCdf' : ℚ → ℚ → ℚ,
      (PairedT.calculate_and_format_paired_t_test tCdf' sq before
        after).confidence_bound =
      (PairedT.calculate_and_format_paired_t_test tCdf sq before
        after).confidence_bound) := by
  refine ⟨rfl, rfl, fun tCdf' => rfl⟩

/-! ## Claim C10 — standalone one-sample z endpoint -/

/-- C10: the `/ztest` handler computes the two-tailed p-value
`2(1 − Φ(|z|))` unconditionally, decides the conclusion against the fixed
threshold 0.05, and never reads an `alternative` or `confidence_level`
field of the request — replacing those fields changes nothing. -/
theorem c10_z_fixed_threshold (normCdf : ℚ → ℚ) (sq : ℚ → ℚ) :
    (∀ (req : ZTestApi.ZRequest) (a : Option String) (c : Option ℚ),
      ZTestApi.one_sample_z_test normCdf sq
        { req with alternative := a, confidence_level := c } =
      ZTestApi.one_sample_z_test normCdf sq req) ∧
    (∀ (req : ZTestApi.ZRequest) (r : ZTestApi.ZResult),
      ZTestApi.one_sample_z_test normCdf sq req = Except.ok r →
      r.p_value = 2 * (1 - normCdf |r.z_score|) ∧
      (r.conclusion = "Reject null hypothesis" ↔ r.p_value < 0.05)) := by
  constructor
  · intro req a c
    rfl
  · intro req r h
    unfold ZTestApi.one_sample_z_test at h
    by_cases h1 : req.sample_size ≤ 0
    · rw [if_pos h1] at h; exact absurd h (by simp)
    rw [if_neg h1] at h
    by_cases h2 : req.standard_deviation ≤ 0
    · rw [if_pos h2] at h; exact absurd h (by simp)
    rw [if_neg h2] at h
    injection h with h
    subst h
    dsimp only
    exact ⟨rfl, reject_iff _⟩

/-- C10 witness: the theorem applied to a concrete request, with and
without the ignored fields. -/
theorem c10_z_fixed_threshold_witness :
    ZTestApi.one_sample_z_test sigCdf ratSqrt
      { sample_mean := 9, population_mean := 0, standard_deviation := 1,
        sample_size := 1, alternative := some "greater",
        confidence_level := some (19/20) } =
      ZTestApi.one_sample_z_test sigCdf ratSqrt
        { sample_mean := 9, population_mean := 0, standard_deviation := 1,
          sample_size := 1, alternative := none, confidence_level := none } ∧
    ((1/10 : ℚ) = 2 * (1 - sigCdf |(9 : ℚ)|) ∧
      (("Fail to reject null hypothesis" : String) =
        "Reject null hypothesis" ↔ (1/10 : ℚ) < 0.05)) := by
  have hzeval : ZTestApi.one_sample_z_test sigCdf ratSqrt
      { sample_mean := 9, population_mean := 0, standard_deviation := 1,
        sample_size := 1, alternative := none, confidence_level := none } =
      Except.ok ⟨9, 1/10, "Fail to reject null hypothesis"⟩ := by
    simp [ZTestApi.one_sample_z_test, sigCdf]
    norm_num [ratSqrt, Int.toNat, abs_of_pos]
  refine ⟨(c10_z_fixed_threshold sigCdf ratSqrt).1
    { sample_mean := 9, population_mean := 0, standard_deviation := 1,
      sample_size := 1, alternative := none, confidence_level := none }
    (some "greater") (some (19/20)), ?_⟩
  have h2 := (c10_z_fixed_threshold sigCdf ratSqrt).2 _ _ hzeval
  refine ⟨?_, h2.2⟩
  have h3 := h2.1
  simpa [sigCdf] using h3

end Systat
